import Mathlib

/-!
Verification of the change-detection core of the pararius-monitor repository.

The development embeds, as executable Lean functions, the listing-identity
resolution, seen-set bookkeeping, persistence loading, notification boundary
and scheduler arithmetic of `ParariusMonitor` (pararius_monitor.py) and
`FundaMonitor` (funda_monitor.py).  Python dicts are modelled as association
lists (insertion-ordered, unique keys), the HTML extraction layer is modelled
by records carrying the attribute/selector results the monitors read, and the
external collaborators (requests, Twilio, hashlib, the filesystem) are
modelled at their interface.
-/

/-- Association-list lookup; models Python `d.get(k)` / `k in d` on a dict
whose insertion order is the list order. -/
def alookup {α β : Type} [DecidableEq α] (k : α) : List (α × β) → Option β
  | [] => none
  | (a, b) :: t => if a = k then some b else alookup k t

/-- Association-list update; models Python `d[k] = v`: an existing binding is
overwritten in place, a new key is appended at the end (dict insertion
order). -/
def aset {α β : Type} [DecidableEq α] (k : α) (v : β) : List (α × β) → List (α × β)
  | [] => [(k, v)]
  | (a, b) :: t => if a = k then (k, v) :: t else (a, b) :: aset k v t

/-- Splitting a character list at every '/' character; models Python
`s.split('/')` (which always returns a non-empty list, `[""]` on `""`). -/
def splitSlash : List Char → List (List Char)
  | [] => [[]]
  | c :: t =>
    let r := splitSlash t
    if c = '/' then [] :: r
    else
      match r with
      | [] => [[c]]
      | h :: t2 => (c :: h) :: t2

/-- Boolean list-prefix test, used to model Python `str.startswith`. -/
def listIsPre : List Char → List Char → Bool
  | [], _ => true
  | _ :: _, [] => false
  | a :: as, b :: bs => a = b && listIsPre as bs

/-- Boolean list-suffix test, used to model Python `str.endswith` and
end-anchored regular expressions. -/
def endsWithL (l sfx : List Char) : Bool :=
  listIsPre sfx.reverse l.reverse

/-- The maximal run of decimal digits at the end of a character list; models
the group captured by the regular expression `(\d+)$`. -/
def trailingDigits (l : List Char) : List Char :=
  (l.reverse.takeWhile Char.isDigit).reverse

/-- A character list with its maximal trailing digit run removed. -/
def stripTrailingDigits (l : List Char) : List Char :=
  (l.reverse.dropWhile Char.isDigit).reverse

/-- Removes one trailing '/' if present; models the optional `/?` before the
`$` anchor of the Funda id regular expressions. -/
def dropTrailSlash (l : List Char) : List Char :=
  if l.getLast? = some '/' then l.dropLast else l

/-- One hexadecimal digit character (lower case), as in a hexdigest. -/
def hexDigit (n : Nat) : Char :=
  if n < 10 then Char.ofNat (48 + n) else Char.ofNat (87 + n)

/-- Big-endian fixed-width hexadecimal rendering of a number. -/
def hexChars : Nat → Nat → List Char
  | 0, _ => []
  | k + 1, n => hexChars k (n / 16) ++ [hexDigit (n % 16)]

/-- Models `hashlib.md5(text.encode()).hexdigest()` at its interface: a
deterministic 32-character lower-case hexadecimal digest of the input text.
The digest algorithm itself is an external library; the monitor depends only
on the digest being a deterministic, non-empty hex string. -/
def md5hex (s : String) : String :=
  ⟨hexChars 32 (s.data.foldl (fun a c => (a * 131 + c.toNat + 7) % (2 ^ 128)) 5381)⟩

/-- Models CPython's builtin `hash` on strings at its interface: a
deterministic integer derived from the text.  The actual value is
runtime-defined; the monitor only converts it to a decimal string. -/
def pyHash (s : String) : Int :=
  s.data.foldl (fun a c => (a * 1000003 + c.toNat) % (2 ^ 61 - 1)) 0

/-- Models Python `str(hash(text))`. -/
def pyHashStr (s : String) : String :=
  toString (pyHash s)

/-- One listing element of a Pararius search page, as seen through the
attribute and selector reads performed by
`ParariusMonitor.check_for_new_listings` (pararius_monitor.py lines 99-148):
`dataListingId` is `listing.get('data-listing-id', '')`, `idAttr` is
`listing.get('id', '')`, `titleHref` is the `href` of the
`a.listing-search-item__link--title` element (`none` when the element or the
attribute is absent), `prettified` is `listing.prettify()`, and
`title`/`linkHref`/`price`/`address` are the stripped texts / `href` of the
detail selectors (`none` when the selector finds nothing). -/
structure RawListing where
  dataListingId : String
  idAttr : String
  titleHref : Option String
  prettified : String
  title : Option String
  linkHref : Option String
  price : Option String
  address : Option String
deriving DecidableEq

/-- The category words excluded as URL-derived ids
(pararius_monitor.py line 108). -/
def categoryWords : List (List Char) :=
  ["huurwoningen".data, "appartement".data, "studio".data, "huis".data]

/-- The URL-segment fallback id of pararius_monitor.py lines 103-109: the last
'/'-separated segment of the title link's href, when the href is non-empty
and the segment is non-empty and not a category word; otherwise the empty
string (Python leaves `listing_id` falsy). -/
def urlSegmentId (l : RawListing) : String :=
  match l.titleHref with
  | some href =>
    if href ≠ "" then
      let seg := (splitSlash href.data).getLastD []
      if seg ≠ [] ∧ seg ∉ categoryWords then ⟨seg⟩ else ""
    else ""
  | none => ""

/-- The listing-id resolution chain of pararius_monitor.py lines 101-111:
`data-listing-id` attribute, then `id` attribute, then the URL segment, then
the md5 content hash of the prettified markup. -/
def resolveListingId (l : RawListing) : String :=
  let id0 := if l.dataListingId ≠ "" then l.dataListingId else l.idAttr
  let id1 := if id0 ≠ "" then id0 else urlSegmentId l
  if id1 ≠ "" then id1 else md5hex l.prettified

/-- The stored snapshot of a Pararius listing
(pararius_monitor.py lines 133-141). -/
structure ListingInfo where
  id : String
  title : String
  price : String
  address : String
  url : String
  source_url : String
  found_at : String
deriving DecidableEq

/-- The per-source map `listing_id -> snapshot`. -/
abbrev InnerMap := List (String × ListingInfo)

/-- The whole `self.seen_listings` state: `source url -> per-source map`. -/
abbrev SeenMap := List (String × InnerMap)

/-- The snapshot stored for key `k` of source `u`, read the way
`check_for_new_listings` reads it: `self.seen_listings.get(url, {})` then
key lookup. -/
def seenEntry (u k : String) (s : SeenMap) : Option ListingInfo :=
  alookup k ((alookup u s).getD [])

/-- Builds the `listing_info` dict of pararius_monitor.py lines 119-141:
texts default to the literal fallback strings, the link is the pararius
prefix plus the href when a truthy href exists and the source url
otherwise, and `found_at` is the current timestamp. -/
def mkListingInfo (l : RawListing) (lid url now : String) : ListingInfo :=
  ⟨lid,
   l.title.getD "No title found",
   l.price.getD "Price not available",
   l.address.getD "Address not available",
   (match l.linkHref with
    | some h => if h ≠ "" then "https://www.pararius.nl" ++ h else url
    | none => url),
   url,
   now⟩

/-- The body of one iteration of the listing loop of
pararius_monitor.py lines 118-145, after the id has been resolved and found
non-empty.  The accumulator carries `self.seen_listings` and
`new_listings_found`.  Membership is tested against
`self.seen_listings.get(url, {})` (the alias `current_seen_listings`); on a
fresh key the snapshot is written through `self.seen_listings[url]`, which
raises `KeyError` — caught by the per-listing handler, leaving the state
unchanged — when the source url is not a key of the outer dict. -/
def processOneRest (url now : String) (acc : SeenMap × List ListingInfo) (l : RawListing) :
    SeenMap × List ListingInfo :=
  let lid := resolveListingId l
  let currentSeen := (alookup url acc.1).getD []
  if alookup lid currentSeen = none then
    match alookup url acc.1 with
    | some inner =>
      let info := mkListingInfo l lid url now
      (aset url (aset lid info inner) acc.1, acc.2 ++ [info])
    | none => acc
  else acc

/-- One iteration of the listing loop of pararius_monitor.py lines 99-148,
including the `if not listing_id: continue` guard of lines 114-116. -/
def processOne (url now : String) (acc : SeenMap × List ListingInfo) (l : RawListing) :
    SeenMap × List ListingInfo :=
  if resolveListingId l = "" then acc else processOneRest url now acc l

/-- ParariusMonitor.check_for_new_listings (pararius_monitor.py lines 67-151)
on a successfully fetched page: `listings` is the element list produced by
the selector fallback chain (lines 83-92); when it is empty the function
returns `[]` without touching the state (lines 94-96), otherwise it runs the
per-listing loop and returns the accumulated new listings. -/
def ParariusMonitor.check_for_new_listings (url now : String) (listings : List RawListing)
    (seen : SeenMap) : SeenMap × List ListingInfo :=
  if listings = [] then (seen, [])
  else listings.foldl (processOne url now) (seen, [])

/-- The Twilio configuration read from the environment
(pararius_monitor.py lines 28-31); `none` models an unset variable. -/
structure SmsConfig where
  account_sid : Option String
  auth_token : Option String
  from_number : Option String
  notification_number : Option String
deriving DecidableEq

/-- Python truthiness of an optional environment string. -/
def truthy : Option String → Bool
  | some s => s ≠ ""
  | none => false

/-- The credential check of pararius_monitor.py lines 162-163. -/
def credsPresent (c : SmsConfig) : Bool :=
  truthy c.account_sid && truthy c.auth_token &&
    truthy c.from_number && truthy c.notification_number

/-- The behaviour of the external `client.messages.create` call: it either
returns a message record or raises. -/
inductive SmsOutcome where
  | sent (sid : String)
  | raised (err : String)
deriving DecidableEq

/-- ParariusMonitor.send_notification (pararius_monitor.py lines 160-186):
incomplete credentials return `False` without attempting delivery; a
successful Twilio call returns `True`; any exception from the attempt is
caught by the enclosing handler and turned into `False`.  The function
always returns a boolean, never an exception. -/
def ParariusMonitor.send_notification (c : SmsConfig) (deliver : SmsOutcome) : Bool :=
  if credsPresent c then
    match deliver with
    | .sent _ => true
    | .raised _ => false
  else false

/-- One step of the per-url loop of ParariusMonitor.run (pararius_monitor.py
lines 220-226): the url is checked against the shared in-memory state and
its new listings are appended to the cycle's accumulated list. -/
def cycleStep (now : String) (pages : String → List RawListing)
    (acc : SeenMap × List ListingInfo) (u : String) : SeenMap × List ListingInfo :=
  let r := ParariusMonitor.check_for_new_listings u now (pages u) acc.1
  (r.1, acc.2 ++ r.2)

/-- One check cycle of ParariusMonitor.run (pararius_monitor.py lines
220-235): every configured url is checked sequentially against the shared
in-memory state, the per-url new listings are concatenated, and afterwards
one notification is attempted per new listing.  `pages` gives the extraction
result for each url and `deliver` the outcome of each Twilio call.  The
returned triple is (state after the cycle, new listings, notification
results). -/
def ParariusMonitor.runCycle (urls : List String) (now : String)
    (pages : String → List RawListing) (c : SmsConfig)
    (deliver : ListingInfo → SmsOutcome) (seen : SeenMap) :
    SeenMap × List ListingInfo × List Bool :=
  let p := urls.foldl (cycleStep now pages) (seen, ([] : List ListingInfo))
  (p.1, p.2, p.2.map fun l => ParariusMonitor.send_notification c (deliver l))

/-- The constructor argument of ParariusMonitor: either a Python value that
is not a list, or a list of url strings. -/
inductive PyArg where
  | nonList
  | strList (urls : List String)

/-- ParariusMonitor.__init__ (pararius_monitor.py lines 13-26): raises
`ValueError` when `search_urls` is not a list or empty; otherwise, starting
from the loaded persisted state, adds an empty per-source map for every
configured url that has no entry yet. -/
def ParariusMonitor.constructor (arg : PyArg) (loaded : SeenMap) : Except String SeenMap :=
  match arg with
  | .nonList => .error "search_urls must be a non-empty list of URLs."
  | .strList urls =>
    if urls = [] then .error "search_urls must be a non-empty list of URLs."
    else .ok (urls.foldl (fun s u => if alookup u s = none then aset u [] s else s) loaded)

/-- A JSON value as produced by `json.load`. -/
inductive JsonVal where
  | null
  | bool (b : Bool)
  | num (n : Int)
  | str (s : String)
  | arr (items : List JsonVal)
  | obj (fields : List (String × JsonVal))

/-- The Python exceptions relevant to reading the persisted state file. -/
inductive PyErr where
  | fileNotFound
  | jsonDecode
  | osError
deriving DecidableEq

/-- The possible states of the persisted state file: absent, present but
unreadable (`open` raises an OSError other than FileNotFoundError), present
but not valid JSON, or holding a parsed JSON value. -/
inductive FileState where
  | absent
  | unreadable
  | malformed (raw : String)
  | holds (v : JsonVal)

/-- The combined behaviour of `open(self.data_file)` followed by
`json.load(f)` on each file state. -/
def readAndParse : FileState → Except PyErr JsonVal
  | .absent => .error .fileNotFound
  | .unreadable => .error .osError
  | .malformed _ => .error .jsonDecode
  | .holds v => .ok v

/-- Python `isinstance(v, dict)`. -/
def isDict : JsonVal → Bool
  | .obj _ => true
  | _ => false

/-- ParariusMonitor._load_seen_listings (pararius_monitor.py lines 41-56):
a loaded dict is returned as stored, any other JSON value is replaced by an
empty dict, `FileNotFoundError`/`JSONDecodeError` are caught and yield an
empty dict, and the trailing `except Exception` turns every remaining error
into an empty dict as well — the caller never sees an exception. -/
def ParariusMonitor.load_seen_listings (fs : FileState) : Except PyErr JsonVal :=
  match readAndParse fs with
  | .ok v => if isDict v then .ok v else .ok (.obj [])
  | .error .fileNotFound => .ok (.obj [])
  | .error .jsonDecode => .ok (.obj [])
  | .error .osError => .ok (.obj [])

/-- FundaMonitor._load_seen_listings (funda_monitor.py lines 52-58): the
parsed JSON value is returned as-is with no dict check, only
`FileNotFoundError` and `JSONDecodeError` are caught (yielding an empty
dict); any other error from `open` propagates to the caller. -/
def FundaMonitor.load_seen_listings (fs : FileState) : Except PyErr JsonVal :=
  match readAndParse fs with
  | .ok v => .ok v
  | .error .fileNotFound => .ok (.obj [])
  | .error .jsonDecode => .ok (.obj [])
  | .error .osError => .error .osError

/-- The wait between Pararius check cycles (pararius_monitor.py line 215):
`self.check_interval + random.uniform(-30, 30)`, with no lower bound. -/
def pararius_wait (check_interval jitter : ℚ) : ℚ :=
  check_interval + jitter

/-- The wait between Funda check cycles (funda_monitor.py lines 336-337):
interval plus a ±10% jitter, floored at 60 seconds by `max(60, ...)`. -/
def funda_wait (check_interval jitter : ℚ) : ℚ :=
  max 60 (check_interval + jitter)

/-- The Pararius backoff after an unexpected main-loop error
(pararius_monitor.py line 246): `120 + random.uniform(0, 60)`, independent
of the configured interval. -/
def pararius_error_sleep (check_interval u : ℚ) : ℚ :=
  120 + u

/-- The Funda backoff after an unexpected main-loop error
(funda_monitor.py line 356): `self.check_interval * 2 + random.uniform(0, 60)`. -/
def funda_error_sleep (check_interval u : ℚ) : ℚ :=
  check_interval * 2 + u

/-- What one iteration of the `while True` main loop encounters: a normal
cycle, a KeyboardInterrupt, or an unexpected exception from the loop body. -/
inductive LoopEvent where
  | ok
  | interrupted
  | failed

/-- One iteration of ParariusMonitor.run's main loop (pararius_monitor.py
lines 213-248), as (does the loop continue, how long it sleeps): a normal
iteration sleeps the jittered wait and continues, KeyboardInterrupt saves
and breaks, and an unexpected error sleeps the fixed backoff and continues. -/
def ParariusMonitor.loopStep (ci wj ej : ℚ) : LoopEvent → Bool × ℚ
  | .ok => (true, pararius_wait ci wj)
  | .interrupted => (false, 0)
  | .failed => (true, pararius_error_sleep ci ej)

/-- One iteration of FundaMonitor.run's main loop (funda_monitor.py lines
333-358), in the same presentation. -/
def FundaMonitor.loopStep (ci wj ej : ℚ) : LoopEvent → Bool × ℚ
  | .ok => (true, funda_wait ci wj)
  | .interrupted => (false, 0)
  | .failed => (true, funda_error_sleep ci ej)

/-- One listing element of a Funda search page, as seen through the reads of
FundaMonitor.check_for_new_listings (funda_monitor.py lines 106-247):
`hasLinkElem` records whether any of the three link selectors of lines
115-119 found an element, `href` its `href` attribute, `dataObjectId` the
`data-object-id` attribute of the item tag, `text` the item tag's text
(the `str(hash(...))` fallback input), and `title`/`price`/`address` the
strings produced by the extraction heuristics of lines 162-222 (with their
"not found" defaults). -/
structure FRaw where
  hasLinkElem : Bool
  href : Option String
  dataObjectId : Option String
  text : String
  title : String
  price : String
  address : String
deriving DecidableEq

/-- The stored snapshot of a Funda listing (funda_monitor.py lines 237-243). -/
structure FInfo where
  title : String
  price : String
  address : String
  url : String
  found_at : String
deriving DecidableEq

/-- FundaMonitor's flat `self.seen_listings` state: `listing_id -> snapshot`
(a single source, no per-url nesting). -/
abbrev FSeen := List (String × FInfo)

/-- The cleaned detail link of funda_monitor.py lines 130-133: the href up to
the first '?', prefixed with the Funda origin unless it already starts with
"http". -/
def fundaLink (h : String) : String :=
  let core : String := ⟨h.data.takeWhile (fun c => c ≠ '?')⟩
  if listIsPre "http".data h.data then core else "https://www.funda.nl" ++ core

/-- The property-type words of the second Funda id pattern
(funda_monitor.py line 147). -/
def fundaTypeWords : List (List Char) :=
  ["appartement".data, "huis".data, "kamer".data, "garage".data,
   "parkeerplaats".data, "bouwgrond".data, "project".data, "woning".data]

/-- Match of the regular expression
`/(?:appartement|...|woning)-(\d+)` anchored at the start of `l`: the digit
run following "/<word>-" when non-empty. -/
def fundaPattern2At (l : List Char) : Option (List Char) :=
  (fundaTypeWords.filterMap fun w =>
    let pre := '/' :: (w ++ ['-'])
    if listIsPre pre l then
      let d := (l.drop pre.length).takeWhile Char.isDigit
      if d ≠ [] then some d else none
    else none).head?

/-- Leftmost search for the second Funda id pattern, scanning start positions
left to right as `re.search` does. -/
def fundaPattern2Aux : List Char → Option (List Char)
  | [] => none
  | c :: t =>
    match fundaPattern2At (c :: t) with
    | some d => some d
    | none => fundaPattern2Aux t

/-- `re.search(r'/object-(\d+)/?$', link)`: after discounting one optional
trailing '/', the link must end in "/object-" followed by the captured
digit run. -/
def fundaPattern1 (link : List Char) : Option (List Char) :=
  let core := dropTrailSlash link
  let d := trailingDigits core
  if d ≠ [] ∧ endsWithL (stripTrailingDigits core) "/object-".data then some d else none

/-- `re.search(r'/(?:appartement|...)-(\d+)', link)`. -/
def fundaPattern2 (link : String) : Option (List Char) :=
  fundaPattern2Aux link.data

/-- `re.search(r'/(\d+)/?$', link)`: after discounting one optional trailing
'/', the link must end in '/' followed by the captured digit run. -/
def fundaPattern3 (link : List Char) : Option (List Char) :=
  let core := dropTrailSlash link
  let d := trailingDigits core
  if d ≠ [] ∧ endsWithL (stripTrailingDigits core) "/".data then some d else none

/-- The id-from-URL fallback chain of funda_monitor.py lines 144-154: the
three patterns are tried in order, first match wins. -/
def fundaUrlId (link : String) : Option (List Char) :=
  match fundaPattern1 link.data with
  | some d => some d
  | none =>
    match fundaPattern2 link with
    | some d => some d
    | none => fundaPattern3 link.data

/-- The `data-object-id` step of funda_monitor.py lines 137-141: when the
attribute is present and truthy, `re.search(r'(\d+)$', ...)` captures its
maximal trailing digit run. -/
def fundaObjId (raw : FRaw) : Option (List Char) :=
  match raw.dataObjectId with
  | some d =>
    if d ≠ "" then
      (if trailingDigits d.data ≠ [] then some (trailingDigits d.data) else none)
    else none
  | none => none

/-- The id and cleaned link of one Funda item (funda_monitor.py lines
127-161), for an item whose link element was found: with a truthy href the
id is, in priority order, the trailing digit run of a truthy
`data-object-id` attribute, then the first URL-pattern match, then the full
cleaned link itself; with a missing or empty href the id is
`str(hash(text))` and the link stays empty. -/
def fundaIdAndLink (raw : FRaw) : String × String :=
  match raw.href with
  | some h =>
    if h ≠ "" then
      let link := fundaLink h
      let lid :=
        match fundaObjId raw with
        | some d => String.mk d
        | none =>
          match fundaUrlId link with
          | some d => String.mk d
          | none => link
      (lid, link)
    else (pyHashStr raw.text, "")
  | none => (pyHashStr raw.text, "")

/-- One iteration of the Funda item loop (funda_monitor.py lines 106-254):
items without a link element are skipped (lines 122-125), a falsy id is
skipped (lines 227-229), an unseen id stores and reports a snapshot (lines
231-245), and an already-seen id leaves everything unchanged (line 247). -/
def fundaProcessOne (now : String) (acc : FSeen × List FInfo) (raw : FRaw) :
    FSeen × List FInfo :=
  if raw.hasLinkElem then
    let p := fundaIdAndLink raw
    if p.1 = "" then acc
    else if alookup p.1 acc.1 = none then
      let info : FInfo := ⟨raw.title, raw.price, raw.address, p.2, now⟩
      (aset p.1 info acc.1, acc.2 ++ [info])
    else acc
  else acc

/-- FundaMonitor.check_for_new_listings (funda_monitor.py lines 68-258) on a
successfully fetched page: `listings` is the element list produced by the
selector fallback chain (lines 77-90); an empty list returns `[]` without
touching the state (lines 92-100), otherwise the item loop runs and the new
snapshots are returned. -/
def FundaMonitor.check_for_new_listings (now : String) (listings : List FRaw)
    (seen : FSeen) : FSeen × List FInfo :=
  if listings = [] then (seen, [])
  else listings.foldl (fundaProcessOne now) (seen, [])

/-- Lookup after update: the updated key reads the new value, any other key
is unaffected. -/
theorem alookup_aset {α β : Type} [DecidableEq α] (k k' : α) (v : β) (m : List (α × β)) :
    alookup k' (aset k v m) = if k = k' then some v else alookup k' m := by
  induction m with
  | nil => simp [alookup, aset]
  | cons hd t ih =>
    obtain ⟨a, b⟩ := hd
    simp only [aset]
    by_cases hak : a = k
    · subst hak
      simp only [if_pos rfl]
      by_cases hk' : a = k' <;> simp [alookup, hk']
    · simp only [if_neg hak, alookup, ih]
      by_cases hak' : a = k'
      · subst hak'
        simp [show ¬ k = a from fun he => hak he.symm]
      · simp [hak']

/-- Fixed-width hex rendering has the requested width. -/
theorem hexChars_length (k n : Nat) : (hexChars k n).length = k := by
  induction k generalizing n with
  | zero => simp [hexChars]
  | succ k ih => simp [hexChars, ih]

/-- The modelled md5 hexdigest is never the empty string. -/
theorem md5hex_ne_empty (s : String) : md5hex s ≠ "" := by
  simp only [md5hex, ne_eq, String.ext_iff]
  intro h
  have h2 := congrArg List.length h
  simp [hexChars_length] at h2

/-- The Pararius id resolution always lands on a non-empty string: each of
the attribute and URL branches only assigns non-empty values, and the final
fallback is a 32-character hexdigest. -/
theorem ite_ne_empty (a b : String) (hb : b ≠ "") : (if a ≠ "" then a else b) ≠ "" := by
  split
  · assumption
  · exact hb

theorem resolveListingId_ne_empty (l : RawListing) : resolveListingId l ≠ "" := by
  simp only [resolveListingId]
  exact ite_ne_empty _ _ (md5hex_ne_empty l.prettified)

/-- C1: for every source URL, if the page yields zero extracted listing
records (no selector matches), check_for_new_listings returns an empty list
and the seen-listings state is exactly what it was before the call, for
both monitors. -/
theorem c1_zero_extraction_safety :
    (∀ url now seen, ParariusMonitor.check_for_new_listings url now [] seen = (seen, [])) ∧
      (∀ now fseen, FundaMonitor.check_for_new_listings now [] fseen = (fseen, [])) :=
  ⟨fun _ _ _ => rfl, fun _ _ => rfl⟩

/-- C7: identity resolution always produces a non-empty key (the content
hash guarantees this), so the skip branch of lines 114-116 is unreachable:
the guarded loop body coincides with the unguarded one on every input and
no record is dropped for lack of a key. -/
theorem c7_key_never_empty (l : RawListing) (url now : String)
    (acc : SeenMap × List ListingInfo) :
    resolveListingId l ≠ "" ∧ processOne url now acc l = processOneRest url now acc l := by
  refine ⟨resolveListingId_ne_empty l, ?_⟩
  unfold processOne
  rw [if_neg (resolveListingId_ne_empty l)]

/-- Witness for C7 at a concrete record that exercises the hash fallback. -/
theorem c7_witness :
    resolveListingId ⟨"", "", none, "<li>page</li>", none, none, none, none⟩ ≠ "" ∧
      processOne "u" "t" ([], []) ⟨"", "", none, "<li>page</li>", none, none, none, none⟩ =
        processOneRest "u" "t" ([], []) ⟨"", "", none, "<li>page</li>", none, none, none, none⟩ :=
  c7_key_never_empty ⟨"", "", none, "<li>page</li>", none, none, none, none⟩ "u" "t" ([], [])

/-- C6 counterexample: the URL fallbacks are not the numeric-id-then-hash
chain the claim states.  A Pararius record with no id attributes whose
title link is "/huurwoning/amsterdam/mooie-flat" (a URL containing no digit
at all, so no numeric identifier can be parsed from it) is keyed by the
non-numeric segment "mooie-flat", not by the content hash the claim's
priority order would then require; and a Funda record whose cleaned link
"https://www.funda.nl/huur/amsterdam/flat/" yields no numeric id is keyed
by that full link, again not by any content hash of the markup/text. -/
theorem c6_counterexample :
    resolveListingId ⟨"", "", some "/huurwoning/amsterdam/mooie-flat", "<li>x</li>",
        none, none, none, none⟩ = "mooie-flat" ∧
      "mooie-flat" ≠ md5hex "<li>x</li>" ∧
      (∀ c ∈ "/huurwoning/amsterdam/mooie-flat".data, c.isDigit = false) ∧
      (fundaIdAndLink ⟨true, some "/huur/amsterdam/flat/", none, "txt", "T", "P", "A"⟩).1 =
        "https://www.funda.nl/huur/amsterdam/flat/" ∧
      "https://www.funda.nl/huur/amsterdam/flat/" ≠ pyHashStr "txt" ∧
      "https://www.funda.nl/huur/amsterdam/flat/" ≠ md5hex "txt" := by
  decide

/-- C6 amended: first success wins in the actual fallback chains.  Pararius:
(1) the data-listing-id attribute, (2) the id attribute, (3) the last
path segment of the title link (not necessarily numeric), (4) the md5
content hash.  Funda (for an item with a truthy href): (1) trailing digits
of the data-object-id attribute, (2) the first numeric URL-pattern match,
(3) the full cleaned link; with no usable href the id is str(hash(text)). -/
theorem c6_amended_key_priority (l : RawListing) (raw : FRaw) (h : String) (ds : List Char) :
    (l.dataListingId ≠ "" → resolveListingId l = l.dataListingId) ∧
      (l.dataListingId = "" → l.idAttr ≠ "" → resolveListingId l = l.idAttr) ∧
      (l.dataListingId = "" → l.idAttr = "" → urlSegmentId l ≠ "" →
        resolveListingId l = urlSegmentId l) ∧
      (l.dataListingId = "" → l.idAttr = "" → urlSegmentId l = "" →
        resolveListingId l = md5hex l.prettified) ∧
      (raw.href = some h → h ≠ "" → fundaObjId raw = some ds →
        (fundaIdAndLink raw).1 = String.mk ds) ∧
      (raw.href = some h → h ≠ "" → fundaObjId raw = none →
        fundaUrlId (fundaLink h) = some ds → (fundaIdAndLink raw).1 = String.mk ds) ∧
      (raw.href = some h → h ≠ "" → fundaObjId raw = none →
        fundaUrlId (fundaLink h) = none → (fundaIdAndLink raw).1 = fundaLink h) ∧
      (raw.href = none → (fundaIdAndLink raw).1 = pyHashStr raw.text) ∧
      (raw.href = some "" → (fundaIdAndLink raw).1 = pyHashStr raw.text) := by
  refine ⟨?_, ?_, ?_, ?_, ?_, ?_, ?_, ?_, ?_⟩
  · intro h1
    unfold resolveListingId
    simp [h1]
  · intro h1 h2
    unfold resolveListingId
    simp [h1, h2]
  · intro h1 h2 h3
    unfold resolveListingId
    simp [h1, h2, h3]
  · intro h1 h2 h3
    unfold resolveListingId
    simp [h1, h2, h3]
  · intro h1 h2 h3
    unfold fundaIdAndLink
    rw [h1]
    simp [h2, h3]
  · intro h1 h2 h3 h4
    unfold fundaIdAndLink
    rw [h1]
    simp [h2, h3, h4]
  · intro h1 h2 h3 h4
    unfold fundaIdAndLink
    rw [h1]
    simp [h2, h3, h4]
  · intro h1
    unfold fundaIdAndLink
    rw [h1]
  · intro h1
    unfold fundaIdAndLink
    rw [h1]
    simp

/-- Witness for C6 amended, exercising each branch of both chains at
concrete records. -/
theorem c6_amended_witness :
    resolveListingId ⟨"d-77", "", none, "m", none, none, none, none⟩ = "d-77" ∧
      resolveListingId ⟨"", "id-9", none, "m", none, none, none, none⟩ = "id-9" ∧
      resolveListingId ⟨"", "", some "/a/b-3", "m", none, none, none, none⟩ =
        urlSegmentId ⟨"", "", some "/a/b-3", "m", none, none, none, none⟩ ∧
      resolveListingId ⟨"", "", some "/huis", "m", none, none, none, none⟩ = md5hex "m" ∧
      (fundaIdAndLink ⟨true, some "/x/object-12", some "o-5", "t", "T", "P", "A"⟩).1 =
        String.mk "5".data ∧
      (fundaIdAndLink ⟨true, some "/x/object-12", none, "t", "T", "P", "A"⟩).1 =
        String.mk "12".data ∧
      (fundaIdAndLink ⟨true, some "/x/flat", none, "t", "T", "P", "A"⟩).1 =
        fundaLink "/x/flat" ∧
      (fundaIdAndLink ⟨true, none, none, "t", "T", "P", "A"⟩).1 = pyHashStr "t" ∧
      (fundaIdAndLink ⟨true, some "", none, "t", "T", "P", "A"⟩).1 = pyHashStr "t" := by
  refine ⟨(c6_amended_key_priority _ ⟨true, none, none, "t", "T", "P", "A"⟩ "" []).1 (by decide),
    (c6_amended_key_priority _ ⟨true, none, none, "t", "T", "P", "A"⟩ "" []).2.1 (by decide)
      (by decide),
    (c6_amended_key_priority _ ⟨true, none, none, "t", "T", "P", "A"⟩ "" []).2.2.1 (by decide)
      (by decide) (by decide),
    (c6_amended_key_priority _ ⟨true, none, none, "t", "T", "P", "A"⟩ "" []).2.2.2.1 (by decide)
      (by decide) (by decide),
    (c6_amended_key_priority ⟨"", "", none, "m", none, none, none, none⟩ _ "/x/object-12"
      "5".data).2.2.2.2.1 (by decide) (by decide) (by decide),
    (c6_amended_key_priority ⟨"", "", none, "m", none, none, none, none⟩ _ "/x/object-12"
      "12".data).2.2.2.2.2.1 (by decide) (by decide) (by decide) (by decide),
    (c6_amended_key_priority ⟨"", "", none, "m", none, none, none, none⟩ _ "/x/flat"
      []).2.2.2.2.2.2.1 (by decide) (by decide) (by decide) (by decide),
    (c6_amended_key_priority ⟨"", "", none, "m", none, none, none, none⟩ _ ""
      []).2.2.2.2.2.2.2.1 (by decide),
    (c6_amended_key_priority ⟨"", "", none, "m", none, none, none, none⟩ _ ""
      []).2.2.2.2.2.2.2.2 (by decide)⟩

/-- C5 counterexample: FundaMonitor's loader violates the claim.  On an
unreadable file (an OSError other than FileNotFoundError) it raises to the
caller instead of returning a mapping, and on a well-formed file holding the
JSON value 3 (not a mapping) it returns 3 as loaded rather than an empty
mapping. -/
theorem c5_counterexample :
    FundaMonitor.load_seen_listings FileState.unreadable = Except.error PyErr.osError ∧
      FundaMonitor.load_seen_listings (FileState.holds (JsonVal.num 3)) =
        Except.ok (JsonVal.num 3) ∧
      Except.error PyErr.osError ≠ (Except.ok (JsonVal.obj []) : Except PyErr JsonVal) ∧
      (Except.ok (JsonVal.num 3) : Except PyErr JsonVal) ≠ Except.ok (JsonVal.obj []) := by
  refine ⟨rfl, rfl, by simp, by simp⟩

/-- C5 amended: ParariusMonitor's loader never raises — it returns an empty
mapping on an absent, unreadable or malformed file and on any non-mapping
JSON value, and returns a well-formed saved mapping as stored.
FundaMonitor's loader returns an empty mapping only on an absent or
malformed file, returns any parsed JSON value (mapping or not) as stored,
and propagates other read errors to the caller. -/
theorem c5_amended_load (r : String) (v : JsonVal) (m : List (String × JsonVal)) :
    ParariusMonitor.load_seen_listings .absent = .ok (.obj []) ∧
      ParariusMonitor.load_seen_listings .unreadable = .ok (.obj []) ∧
      ParariusMonitor.load_seen_listings (.malformed r) = .ok (.obj []) ∧
      (isDict v = false → ParariusMonitor.load_seen_listings (.holds v) = .ok (.obj [])) ∧
      ParariusMonitor.load_seen_listings (.holds (.obj m)) = .ok (.obj m) ∧
      FundaMonitor.load_seen_listings .absent = .ok (.obj []) ∧
      FundaMonitor.load_seen_listings (.malformed r) = .ok (.obj []) ∧
      FundaMonitor.load_seen_listings (.holds v) = .ok v ∧
      FundaMonitor.load_seen_listings .unreadable = .error .osError := by
  refine ⟨rfl, rfl, rfl, ?_, rfl, rfl, rfl, rfl, rfl⟩
  intro hv
  unfold ParariusMonitor.load_seen_listings readAndParse
  simp [hv]

/-- Witness for C5 amended at a non-mapping JSON value. -/
theorem c5_amended_witness :
    isDict (JsonVal.num 3) = false ∧
      ParariusMonitor.load_seen_listings (.holds (JsonVal.num 3)) = .ok (.obj []) :=
  ⟨rfl, (c5_amended_load "x" (JsonVal.num 3) []).2.2.2.1 rfl⟩

/-- C8 counterexample: ParariusMonitor has no 60-second floor.  With the
monitor configured at a 60-second interval (a value its own test harness
uses) and the legal jitter draw -30 from uniform(-30, 30), the computed
wait is 30 seconds, below the claimed minimum of 60. -/
theorem c8_counterexample :
    pararius_wait 60 (-30) = 30 ∧ ¬ (60 ≤ pararius_wait 60 (-30)) ∧
      (-30 : ℚ) ≤ -30 ∧ (-30 : ℚ) ≤ 30 := by
  refine ⟨by norm_num [pararius_wait], by norm_num [pararius_wait], le_refl _, by norm_num⟩

/-- C8 amended: FundaMonitor's wait is floored at 60 seconds for every
interval and jitter draw; ParariusMonitor's wait is interval plus a jitter
drawn from [-30, 30] with no floor, so it is at least 60 seconds only under
the extra assumption that the configured interval is at least 90. -/
theorem c8_amended_wait_floor (ci j : ℚ) :
    60 ≤ funda_wait ci j ∧ (90 ≤ ci → -30 ≤ j → 60 ≤ pararius_wait ci j) := by
  constructor
  · exact le_max_left 60 (ci + j)
  · intro h1 h2
    unfold pararius_wait
    linarith

/-- Witness for C8 amended at the default 900-second interval. -/
theorem c8_amended_witness :
    60 ≤ funda_wait 900 0 ∧ (90 : ℚ) ≤ 900 ∧ (-30 : ℚ) ≤ 0 ∧ 60 ≤ pararius_wait 900 0 :=
  ⟨(c8_amended_wait_floor 900 0).1, by norm_num, by norm_num,
    (c8_amended_wait_floor 900 0).2 (by norm_num) (by norm_num)⟩

/-- C9 counterexample: on an unexpected main-loop error with the default
900-second interval and jitter draw 0, ParariusMonitor sleeps 120 seconds,
which is not double the configured interval plus the jitter (1800). -/
theorem c9_counterexample :
    (ParariusMonitor.loopStep 900 0 0 .failed).1 = true ∧
      (ParariusMonitor.loopStep 900 0 0 .failed).2 = 120 ∧
      (ParariusMonitor.loopStep 900 0 0 .failed).2 ≠ 2 * 900 + 0 := by
  refine ⟨rfl, by norm_num [ParariusMonitor.loopStep, pararius_error_sleep], ?_⟩
  norm_num [ParariusMonitor.loopStep, pararius_error_sleep]

/-- C9 amended: an unexpected error in the loop body never terminates the
loop for either monitor.  FundaMonitor then sleeps double its configured
interval plus the jitter draw; ParariusMonitor sleeps a fixed 120 seconds
plus the jitter draw, independent of its interval. -/
theorem c9_amended_error_backoff (ci wj ej : ℚ) :
    (ParariusMonitor.loopStep ci wj ej .failed).1 = true ∧
      (ParariusMonitor.loopStep ci wj ej .failed).2 = 120 + ej ∧
      (FundaMonitor.loopStep ci wj ej .failed).1 = true ∧
      (FundaMonitor.loopStep ci wj ej .failed).2 = ci * 2 + ej :=
  ⟨rfl, rfl, rfl, rfl⟩

/-- Processing one Pararius record never removes or overwrites an existing
snapshot of any source. -/
theorem processOne_preserves (url now u k : String) (v : ListingInfo)
    (acc : SeenMap × List ListingInfo) (l : RawListing)
    (h : seenEntry u k acc.1 = some v) :
    seenEntry u k (processOne url now acc l).1 = some v := by
  unfold processOne
  split
  · exact h
  · unfold processOneRest
    simp only []
    split
    · rename_i hnone
      split
      · rename_i inner hsrc
        unfold seenEntry at h ⊢
        rw [alookup_aset]
        by_cases hu : url = u
        · subst hu
          rw [if_pos rfl]
          rw [hsrc] at h hnone
          simp only [Option.getD_some] at h hnone ⊢
          rw [alookup_aset]
          by_cases hk : resolveListingId l = k
          · rw [hk] at hnone
            rw [hnone] at h
            cases h
          · rw [if_neg hk]
            exact h
        · rw [if_neg hu]
          exact h
      · exact h
    · exact h

/-- Processing one Pararius record neither adds nor removes source keys of
the outer seen map. -/
theorem processOne_isSome (url now u : String) (acc : SeenMap × List ListingInfo)
    (l : RawListing) :
    (alookup u (processOne url now acc l).1).isSome = (alookup u acc.1).isSome := by
  unfold processOne
  split
  · rfl
  · unfold processOneRest
    simp only []
    split
    · split
      · rename_i inner hsrc
        rw [alookup_aset]
        by_cases hu : url = u
        · subst hu
          rw [if_pos rfl, hsrc]
          rfl
        · rw [if_neg hu]
      · rfl
    · rfl

/-- After processing a record against a state that has an entry for the
source url, the record's key is present in that source's map. -/
theorem processOne_establishes (url now : String) (acc : SeenMap × List ListingInfo)
    (l : RawListing) (h : (alookup url acc.1).isSome = true) :
    (seenEntry url (resolveListingId l) (processOne url now acc l).1).isSome = true := by
  unfold processOne
  rw [if_neg (resolveListingId_ne_empty l)]
  unfold processOneRest
  simp only []
  split
  · rename_i hnone
    split
    · rename_i inner hsrc
      unfold seenEntry
      rw [alookup_aset, if_pos rfl]
      simp only [Option.getD_some]
      rw [alookup_aset, if_pos rfl]
      rfl
    · rename_i hsrc
      rw [hsrc] at h
      cases h
  · rename_i hsome
    unfold seenEntry
    exact Option.isSome_iff_ne_none.mpr hsome

/-- A record whose key is already stored for its source leaves the whole
accumulator untouched. -/
theorem processOne_noop_of_seen (url now : String) (acc : SeenMap × List ListingInfo)
    (l : RawListing) (h : (seenEntry url (resolveListingId l) acc.1).isSome = true) :
    processOne url now acc l = acc := by
  unfold processOne
  split
  · rfl
  · unfold processOneRest
    simp only []
    split
    · rename_i hnone
      unfold seenEntry at h
      rw [hnone] at h
      cases h
    · rfl

/-- When the source url has no entry in the outer map, the write raises
`KeyError`, the per-listing handler swallows it, and nothing changes. -/
theorem processOne_noop_of_nosource (url now : String) (acc : SeenMap × List ListingInfo)
    (l : RawListing) (h : alookup url acc.1 = none) :
    processOne url now acc l = acc := by
  unfold processOne
  split
  · rfl
  · unfold processOneRest
    simp only []
    split
    · split
      · rename_i inner hsrc
        rw [h] at hsrc
        cases hsrc
      · rfl
    · rfl

/-- Every listing reported by one processing step either was already in the
accumulated result or is a freshly stored snapshot: its source is the
checked url, its key was absent before the step and maps to exactly this
snapshot after the step. -/
theorem processOne_result (url now : String) (acc : SeenMap × List ListingInfo)
    (l : RawListing) (info : ListingInfo)
    (h : info ∈ (processOne url now acc l).2) :
    info ∈ acc.2 ∨ (info.source_url = url ∧ info.id = resolveListingId l ∧
      seenEntry url info.id acc.1 = none ∧
      seenEntry url info.id (processOne url now acc l).1 = some info) := by
  unfold processOne at h ⊢
  by_cases hr : resolveListingId l = ""
  · rw [if_pos hr] at h
    exact Or.inl h
  · rw [if_neg hr] at h ⊢
    unfold processOneRest at h ⊢
    simp only [] at h ⊢
    split at h
    · rename_i hnone
      split at h
      · rename_i inner hsrc
        simp only [List.mem_append, List.mem_singleton] at h
        cases h with
        | inl hmem => exact Or.inl hmem
        | inr heq =>
          subst heq
          refine Or.inr ⟨rfl, rfl, ?_, ?_⟩
          · rw [hsrc] at hnone
            simp only [Option.getD_some] at hnone
            unfold seenEntry
            rw [hsrc]
            simp only [Option.getD_some]
            exact hnone
          · unfold seenEntry
            rw [if_pos hnone]
            rw [alookup_aset, if_pos rfl]
            simp only [Option.getD_some]
            rw [alookup_aset]
            simp [mkListingInfo]
      · exact Or.inl h
    · exact Or.inl h

/-- Folding the listing loop over a page never removes or overwrites an
existing snapshot of any source. -/
theorem foldP_preserves (url now u k : String) (v : ListingInfo)
    (ls : List RawListing) (acc : SeenMap × List ListingInfo)
    (h : seenEntry u k acc.1 = some v) :
    seenEntry u k (ls.foldl (processOne url now) acc).1 = some v := by
  induction ls generalizing acc with
  | nil => exact h
  | cons a t ih => exact ih _ (processOne_preserves url now u k v acc a h)

/-- Folding the listing loop over a page neither adds nor removes source
keys of the outer seen map. -/
theorem foldP_isSome (url now u : String) (ls : List RawListing)
    (acc : SeenMap × List ListingInfo) :
    (alookup u (ls.foldl (processOne url now) acc).1).isSome = (alookup u acc.1).isSome := by
  induction ls generalizing acc with
  | nil => rfl
  | cons a t ih => rw [List.foldl_cons, ih, processOne_isSome]

/-- After the loop has run over a page of a source that exists in the outer
map, every record of the page has its key stored for that source. -/
theorem foldP_establishes (url now : String) (ls : List RawListing)
    (acc : SeenMap × List ListingInfo) (h : (alookup url acc.1).isSome = true) :
    ∀ l ∈ ls,
      (seenEntry url (resolveListingId l) (ls.foldl (processOne url now) acc).1).isSome
        = true := by
  induction ls generalizing acc with
  | nil => intro l hl; cases hl
  | cons a t ih =>
    intro l hl
    rw [List.foldl_cons]
    rcases List.mem_cons.mp hl with heq | hmem
    · subst heq
      have h1 := processOne_establishes url now acc l h
      rcases Option.isSome_iff_exists.mp h1 with ⟨v, hv⟩
      have h2 := foldP_preserves url now url (resolveListingId l) v t _ hv
      rw [h2]
      rfl
    · have h' : (alookup url (processOne url now acc a).1).isSome = true := by
        rw [processOne_isSome]; exact h
      exact ih (processOne url now acc a) h' l hmem

/-- When every record of the page is already seen for an existing source,
running the loop changes nothing at all. -/
theorem foldP_noop (url now : String) (ls : List RawListing)
    (acc : SeenMap × List ListingInfo)
    (h : ∀ l ∈ ls, (seenEntry url (resolveListingId l) acc.1).isSome = true) :
    ls.foldl (processOne url now) acc = acc := by
  induction ls with
  | nil => rfl
  | cons a t ih =>
    rw [List.foldl_cons, processOne_noop_of_seen url now acc a (h a (List.mem_cons_self a t))]
    exact ih fun l hl => h l (List.mem_cons_of_mem a hl)

/-- When the source url is absent from the outer map, running the loop
changes nothing at all: every write attempt raises and is swallowed. -/
theorem foldP_noop_nosource (url now : String) (ls : List RawListing)
    (acc : SeenMap × List ListingInfo) (h : alookup url acc.1 = none) :
    ls.foldl (processOne url now) acc = acc := by
  induction ls with
  | nil => rfl
  | cons a t ih =>
    rw [List.foldl_cons, processOne_noop_of_nosource url now acc a h]
    exact ih

/-- Every listing reported by the loop either was already accumulated or is
a freshly stored snapshot whose key was absent from its source before the
loop and holds exactly this snapshot afterwards. -/
theorem foldP_result (url now : String) (ls : List RawListing)
    (acc : SeenMap × List ListingInfo) (info : ListingInfo)
    (h : info ∈ (ls.foldl (processOne url now) acc).2) :
    info ∈ acc.2 ∨ (info.source_url = url ∧
      seenEntry url info.id acc.1 = none ∧
      seenEntry url info.id (ls.foldl (processOne url now) acc).1 = some info) := by
  induction ls generalizing acc with
  | nil => exact Or.inl h
  | cons a t ih =>
    rw [List.foldl_cons] at h ⊢
    rcases ih (processOne url now acc a) h with hmem | ⟨hsrc, hpre, hpost⟩
    · rcases processOne_result url now acc a info hmem with hmem0 | ⟨hsrc, hid, hpre, hpost⟩
      · exact Or.inl hmem0
      · refine Or.inr ⟨hsrc, hpre, ?_⟩
        exact foldP_preserves url now url info.id info t _ hpost
    · refine Or.inr ⟨hsrc, ?_, hpost⟩
      cases hpre0 : seenEntry url info.id acc.1 with
      | none => rfl
      | some v =>
        rw [processOne_preserves url now url info.id v acc a hpre0] at hpre
        cases hpre

/-- check_for_new_listings is the listing-loop fold from the given state
with an empty result accumulator. -/
theorem check_eq_foldl (url now : String) (ls : List RawListing) (seen : SeenMap) :
    ParariusMonitor.check_for_new_listings url now ls seen =
      ls.foldl (processOne url now) (seen, []) := by
  unfold ParariusMonitor.check_for_new_listings
  split
  · rename_i he
    subst he
    rfl
  · rfl

/-- Processing one Funda item never removes or overwrites an existing
snapshot. -/
theorem fundaProcessOne_preserves (now k : String) (w : FInfo)
    (acc : FSeen × List FInfo) (raw : FRaw) (h : alookup k acc.1 = some w) :
    alookup k (fundaProcessOne now acc raw).1 = some w := by
  unfold fundaProcessOne
  split
  · simp only []
    split
    · exact h
    · split
      · rename_i hnone
        rw [alookup_aset]
        by_cases hk : (fundaIdAndLink raw).1 = k
        · rw [hk] at hnone
          rw [hnone] at h
          cases h
        · rw [if_neg hk]
          exact h
      · exact h
  · exact h

/-- Folding the Funda item loop never removes or overwrites an existing
snapshot. -/
theorem foldF_preserves (now k : String) (w : FInfo) (ls : List FRaw)
    (acc : FSeen × List FInfo) (h : alookup k acc.1 = some w) :
    alookup k (ls.foldl (fundaProcessOne now) acc).1 = some w := by
  induction ls generalizing acc with
  | nil => exact h
  | cons a t ih => exact ih _ (fundaProcessOne_preserves now k w acc a h)

/-- Every Funda item reported by one step either was already accumulated or
is stored under a key that was absent before the step. -/
theorem fundaProcessOne_result (now : String) (acc : FSeen × List FInfo)
    (raw : FRaw) (info : FInfo) (h : info ∈ (fundaProcessOne now acc raw).2) :
    info ∈ acc.2 ∨ ∃ kk, alookup kk acc.1 = none ∧
      alookup kk (fundaProcessOne now acc raw).1 = some info := by
  unfold fundaProcessOne at h ⊢
  split at h
  · simp only [] at h ⊢
    split at h
    · exact Or.inl h
    · split at h
      · rename_i hnone
        simp only [List.mem_append, List.mem_singleton] at h
        cases h with
        | inl hmem => exact Or.inl hmem
        | inr heq =>
          subst heq
          refine Or.inr ⟨(fundaIdAndLink raw).1, hnone, ?_⟩
          rename_i hlink hne
          rw [if_pos hlink, if_neg hne, if_pos hnone]
          rw [alookup_aset, if_pos rfl]
      · exact Or.inl h
  · exact Or.inl h

/-- Every Funda item reported by the loop either was already accumulated or
is stored under a key that was absent before the loop and holds exactly
this snapshot afterwards. -/
theorem foldF_result (now : String) (ls : List FRaw) (acc : FSeen × List FInfo)
    (info : FInfo) (h : info ∈ (ls.foldl (fundaProcessOne now) acc).2) :
    info ∈ acc.2 ∨ ∃ kk, alookup kk acc.1 = none ∧
      alookup kk (ls.foldl (fundaProcessOne now) acc).1 = some info := by
  induction ls generalizing acc with
  | nil => exact Or.inl h
  | cons a t ih =>
    rw [List.foldl_cons] at h ⊢
    rcases ih (fundaProcessOne now acc a) h with hmem | ⟨kk, hpre, hpost⟩
    · rcases fundaProcessOne_result now acc a info hmem with hmem0 | ⟨kk, hpre, hpost⟩
      · exact Or.inl hmem0
      · refine Or.inr ⟨kk, hpre, ?_⟩
        exact foldF_preserves now kk info t _ hpost
    · refine Or.inr ⟨kk, ?_, hpost⟩
      cases hpre0 : alookup kk acc.1 with
      | none => rfl
      | some w =>
        rw [fundaProcessOne_preserves now kk w acc a hpre0] at hpre
        cases hpre

/-- FundaMonitor.check_for_new_listings is the item-loop fold from the given
state with an empty result accumulator. -/
theorem fcheck_eq_foldl (now : String) (ls : List FRaw) (seen : FSeen) :
    FundaMonitor.check_for_new_listings now ls seen =
      ls.foldl (fundaProcessOne now) (seen, []) := by
  unfold FundaMonitor.check_for_new_listings
  split
  · rename_i he
    subst he
    rfl
  · rfl

/-- Helper: an option whose isSome is false is none. -/
theorem opt_eq_none_of_isSome_false {α : Type} (o : Option α) (h : o.isSome = false) :
    o = none := by
  cases o with
  | none => rfl
  | some a => simp at h

/-- C2: for both monitors, a record whose resolved key is already stored is
never reported again and its stored snapshot survives unchanged (write-once,
whatever the fresh record's fields are), and no key of any source is ever
removed.  For Pararius, every reported listing's id differs from every
previously stored key of its source; for Funda, every reported listing is
stored under a key that was absent before the run. -/
theorem c2_seen_keys_write_once (url u now now2 k k2 kf : String)
    (v v2 : ListingInfo) (w : FInfo) (ls : List RawListing) (fls : List FRaw)
    (seen : SeenMap) (fseen : FSeen)
    (h1 : seenEntry u k seen = some v)
    (h2 : seenEntry url k2 seen = some v2)
    (h3 : alookup kf fseen = some w) :
    seenEntry u k (ParariusMonitor.check_for_new_listings url now ls seen).1 = some v ∧
      (∀ info ∈ (ParariusMonitor.check_for_new_listings url now ls seen).2, info.id ≠ k2) ∧
      alookup kf (FundaMonitor.check_for_new_listings now2 fls fseen).1 = some w ∧
      (∀ info ∈ (FundaMonitor.check_for_new_listings now2 fls fseen).2,
        ∃ kk, alookup kk fseen = none ∧
          alookup kk (FundaMonitor.check_for_new_listings now2 fls fseen).1 = some info) := by
  refine ⟨?_, ?_, ?_, ?_⟩
  · rw [check_eq_foldl]
    exact foldP_preserves url now u k v ls (seen, []) h1
  · intro info hmem
    rw [check_eq_foldl] at hmem
    rcases foldP_result url now ls (seen, []) info hmem with hin | ⟨hsrc, hpre, hpost⟩
    · cases hin
    · intro hk
      subst hk
      have h4 : seenEntry url info.id seen = none := hpre
      rw [h2] at h4
      cases h4
  · rw [fcheck_eq_foldl]
    exact foldF_preserves now2 kf w fls (fseen, []) h3
  · intro info hmem
    rw [fcheck_eq_foldl] at hmem ⊢
    rcases foldF_result now2 fls (fseen, []) info hmem with hin | hex
    · cases hin
    · exact hex

/-- Witness for C2 on concrete states holding one stored snapshot per
monitor and pages that re-offer the already-seen records with changed
fields. -/
theorem c2_witness :
    seenEntry "s" "A1"
        [("s", [("A1", ⟨"A1", "T", "P", "A", "L", "s", "t0"⟩)])] =
        some ⟨"A1", "T", "P", "A", "L", "s", "t0"⟩ ∧
      seenEntry "s" "A1"
          (ParariusMonitor.check_for_new_listings "s" "t1"
            [⟨"A1", "", none, "m", some "T2", none, some "P2", some "A2"⟩]
            [("s", [("A1", ⟨"A1", "T", "P", "A", "L", "s", "t0"⟩)])]).1 =
        some ⟨"A1", "T", "P", "A", "L", "s", "t0"⟩ ∧
      (∀ info ∈ (ParariusMonitor.check_for_new_listings "s" "t1"
          [⟨"A1", "", none, "m", some "T2", none, some "P2", some "A2"⟩]
          [("s", [("A1", ⟨"A1", "T", "P", "A", "L", "s", "t0"⟩)])]).2, info.id ≠ "A1") ∧
      alookup "77"
          (FundaMonitor.check_for_new_listings "t1"
            [⟨true, some "/object-77", none, "x", "T2", "P2", "A2"⟩]
            [("77", ⟨"T", "P", "A", "L", "t0"⟩)]).1 =
        some ⟨"T", "P", "A", "L", "t0"⟩ := by
  have h := c2_seen_keys_write_once "s" "s" "t1" "t1" "A1" "A1" "77"
    ⟨"A1", "T", "P", "A", "L", "s", "t0"⟩ ⟨"A1", "T", "P", "A", "L", "s", "t0"⟩
    ⟨"T", "P", "A", "L", "t0"⟩
    [⟨"A1", "", none, "m", some "T2", none, some "P2", some "A2"⟩]
    [⟨true, some "/object-77", none, "x", "T2", "P2", "A2"⟩]
    [("s", [("A1", ⟨"A1", "T", "P", "A", "L", "s", "t0"⟩)])]
    [("77", ⟨"T", "P", "A", "L", "t0"⟩)]
    (by decide) (by decide) (by decide)
  exact ⟨by decide, h.1, h.2.1, h.2.2.1⟩

/-- C3: running detection twice on the identical record sequence yields zero
new listings the second time and leaves the seen state exactly as the first
run left it. -/
theorem c3_second_run_empty (url now now2 : String) (ls : List RawListing) (seen : SeenMap) :
    ParariusMonitor.check_for_new_listings url now2 ls
        (ParariusMonitor.check_for_new_listings url now ls seen).1 =
      ((ParariusMonitor.check_for_new_listings url now ls seen).1, []) := by
  simp only [check_eq_foldl]
  by_cases hsrc : (alookup url seen).isSome = true
  · have est := foldP_establishes url now ls (seen, []) hsrc
    exact foldP_noop url now2 ls _ (fun l hl => est l hl)
  · have h0 : alookup url seen = none :=
      opt_eq_none_of_isSome_false _ (Bool.not_eq_true _ ▸ eq_false_of_ne_true hsrc)
    have e1 : ls.foldl (processOne url now) (seen, []) = (seen, []) :=
      foldP_noop_nosource url now ls (seen, []) h0
    rw [e1]
    exact foldP_noop_nosource url now2 ls _ h0

/-- Listing snapshots of one Pararius cycle step survive every later step of
the cycle. -/
theorem cycleStep_preserves (now : String) (pages : String → List RawListing)
    (u k : String) (v : ListingInfo) (acc : SeenMap × List ListingInfo) (a : String)
    (h : seenEntry u k acc.1 = some v) :
    seenEntry u k (cycleStep now pages acc a).1 = some v := by
  show seenEntry u k (ParariusMonitor.check_for_new_listings a now (pages a) acc.1).1 = some v
  rw [check_eq_foldl]
  exact foldP_preserves a now u k v (pages a) (acc.1, []) h

/-- Snapshots survive a whole cycle of checks over all configured urls. -/
theorem cycleFold_preserves (now : String) (pages : String → List RawListing)
    (u k : String) (v : ListingInfo) (urls : List String)
    (acc : SeenMap × List ListingInfo) (h : seenEntry u k acc.1 = some v) :
    seenEntry u k (urls.foldl (cycleStep now pages) acc).1 = some v := by
  induction urls generalizing acc with
  | nil => exact h
  | cons a t ih => exact ih _ (cycleStep_preserves now pages u k v acc a h)

/-- One cycle step neither adds nor removes source keys. -/
theorem cycleStep_isSome (now : String) (pages : String → List RawListing)
    (u : String) (acc : SeenMap × List ListingInfo) (a : String) :
    (alookup u (cycleStep now pages acc a).1).isSome = (alookup u acc.1).isSome := by
  show (alookup u (ParariusMonitor.check_for_new_listings a now (pages a) acc.1).1).isSome
    = (alookup u acc.1).isSome
  rw [check_eq_foldl]
  exact foldP_isSome a now u (pages a) (acc.1, [])

/-- A whole cycle neither adds nor removes source keys. -/
theorem cycleFold_isSome (now : String) (pages : String → List RawListing)
    (u : String) (urls : List String) (acc : SeenMap × List ListingInfo) :
    (alookup u (urls.foldl (cycleStep now pages) acc).1).isSome
      = (alookup u acc.1).isSome := by
  induction urls generalizing acc with
  | nil => rfl
  | cons a t ih => rw [List.foldl_cons, ih, cycleStep_isSome]

/-- After one cycle, every configured url either still has no entry in the
outer map, or every record of its page has its key stored. -/
theorem cycleFold_covered (now : String) (pages : String → List RawListing)
    (urls : List String) (acc : SeenMap × List ListingInfo) :
    ∀ u ∈ urls,
      alookup u (urls.foldl (cycleStep now pages) acc).1 = none ∨
        ∀ l ∈ pages u,
          (seenEntry u (resolveListingId l)
            (urls.foldl (cycleStep now pages) acc).1).isSome = true := by
  induction urls generalizing acc with
  | nil => intro u hu; cases hu
  | cons a t ih =>
    intro u hu
    rw [List.foldl_cons]
    rcases List.mem_cons.mp hu with heq | hmem
    · subst heq
      by_cases hsrc : (alookup u acc.1).isSome = true
      · right
        intro l hl
        have h1 : (seenEntry u (resolveListingId l) (cycleStep now pages acc u).1).isSome
            = true := by
          show (seenEntry u (resolveListingId l)
            (ParariusMonitor.check_for_new_listings u now (pages u) acc.1).1).isSome = true
          rw [check_eq_foldl]
          exact foldP_establishes u now (pages u) (acc.1, []) hsrc l hl
        rcases Option.isSome_iff_exists.mp h1 with ⟨v, hv⟩
        rw [cycleFold_preserves now pages u (resolveListingId l) v t _ hv]
        rfl
      · left
        have h0 : alookup u acc.1 = none :=
          opt_eq_none_of_isSome_false _ (eq_false_of_ne_true hsrc)
        have h2 := cycleFold_isSome now pages u t (cycleStep now pages acc u)
        rw [cycleStep_isSome, h0] at h2
        exact opt_eq_none_of_isSome_false _ h2
    · exact ih (cycleStep now pages acc a) u hmem

/-- When every configured url is either unknown to the outer map or fully
covered by its page, a cycle changes nothing and reports nothing. -/
theorem cycleFold_noop (now : String) (pages : String → List RawListing)
    (urls : List String) (acc : SeenMap × List ListingInfo)
    (h : ∀ u ∈ urls, alookup u acc.1 = none ∨
      ∀ l ∈ pages u, (seenEntry u (resolveListingId l) acc.1).isSome = true) :
    urls.foldl (cycleStep now pages) acc = acc := by
  induction urls with
  | nil => rfl
  | cons a t ih =>
    have ec : ParariusMonitor.check_for_new_listings a now (pages a) acc.1 = (acc.1, []) := by
      rw [check_eq_foldl]
      rcases h a (List.mem_cons_self a t) with h0 | h0
      · exact foldP_noop_nosource a now (pages a) (acc.1, []) h0
      · exact foldP_noop a now (pages a) (acc.1, []) (fun l hl => h0 l hl)
    have e : cycleStep now pages acc a = acc := by
      unfold cycleStep
      simp only []
      rw [ec]
      simp
    rw [List.foldl_cons, e]
    exact ih fun u hu => h u (List.mem_cons_of_mem a hu)

/-- Every listing reported by a cycle is stored, at cycle end, under its own
id for its own source url. -/
theorem cycleFold_result (now : String) (pages : String → List RawListing)
    (urls : List String) (acc : SeenMap × List ListingInfo) (info : ListingInfo)
    (h : info ∈ (urls.foldl (cycleStep now pages) acc).2) :
    info ∈ acc.2 ∨
      seenEntry info.source_url info.id (urls.foldl (cycleStep now pages) acc).1
        = some info := by
  induction urls generalizing acc with
  | nil => exact Or.inl h
  | cons a t ih =>
    rw [List.foldl_cons] at h ⊢
    rcases ih (cycleStep now pages acc a) h with hmem | hpost
    · have hm2 : info ∈ acc.2 ++ (ParariusMonitor.check_for_new_listings a now
          (pages a) acc.1).2 := hmem
      rcases List.mem_append.mp hm2 with h1 | h2
      · exact Or.inl h1
      · rw [check_eq_foldl] at h2
        rcases foldP_result a now (pages a) (acc.1, []) info h2 with h3 | ⟨hsrc, hpre, hpost⟩
        · cases h3
        · right
          rw [hsrc]
          have hstep : seenEntry a info.id (cycleStep now pages acc a).1 = some info := by
            show seenEntry a info.id
              (ParariusMonitor.check_for_new_listings a now (pages a) acc.1).1 = some info
            rw [check_eq_foldl]
            exact hpost
          exact cycleFold_preserves now pages a info.id info t _ hstep
    · exact Or.inr hpost

/-- C4: send_notification always returns a boolean (every failure mode is
caught inside it); the seen state and the reported listings of a cycle are
identical whatever the credentials and whatever every Twilio call does;
every reported listing is already stored in the cycle's final state (the
insertion happens during detection, before any notification attempt); and a
second cycle over the same pages reports nothing, however the first cycle's
notifications fared. -/
theorem c4_notification_isolated (urls : List String) (now now2 : String)
    (pages : String → List RawListing) (c c2 : SmsConfig)
    (d d2 : ListingInfo → SmsOutcome) (seen : SeenMap) :
    (∀ cfg o, ParariusMonitor.send_notification cfg o = true ∨
        ParariusMonitor.send_notification cfg o = false) ∧
      (ParariusMonitor.runCycle urls now pages c d seen).1 =
        (ParariusMonitor.runCycle urls now pages c2 d2 seen).1 ∧
      (ParariusMonitor.runCycle urls now pages c d seen).2.1 =
        (ParariusMonitor.runCycle urls now pages c2 d2 seen).2.1 ∧
      (∀ info ∈ (ParariusMonitor.runCycle urls now pages c d seen).2.1,
        seenEntry info.source_url info.id (ParariusMonitor.runCycle urls now pages c d seen).1
          = some info) ∧
      (ParariusMonitor.runCycle urls now2 pages c d
          (ParariusMonitor.runCycle urls now pages c d seen).1).2.1 = [] := by
  refine ⟨?_, rfl, rfl, ?_, ?_⟩
  · intro cfg o
    cases ParariusMonitor.send_notification cfg o
    · exact Or.inr rfl
    · exact Or.inl rfl
  · intro info hmem
    have hm : info ∈ (urls.foldl (cycleStep now pages) (seen, [])).2 := hmem
    rcases cycleFold_result now pages urls (seen, []) info hm with hin | hpost
    · cases hin
    · exact hpost
  · have hcov := cycleFold_covered now pages urls (seen, [])
    have e : urls.foldl (cycleStep now2 pages)
        ((urls.foldl (cycleStep now pages) (seen, [])).1, []) =
        ((urls.foldl (cycleStep now pages) (seen, [])).1, []) :=
      cycleFold_noop now2 pages urls _ (fun u hu => hcov u hu)
    show (urls.foldl (cycleStep now2 pages)
      ((urls.foldl (cycleStep now pages) (seen, [])).1, [])).2 = []
    rw [e]

/-- Witness for C4 on a one-url, one-listing cycle whose notification is
configured to fail. -/
theorem c4_witness :
    seenEntry "u" "A1"
        (ParariusMonitor.runCycle ["u"] "t" (fun _ => [⟨"A1", "", none, "m",
          some "T", none, some "P", some "A"⟩]) ⟨none, none, none, none⟩
          (fun _ => SmsOutcome.raised "boom") [("u", [])]).1 =
      some ⟨"A1", "T", "P", "A", "u", "u", "t"⟩ ∧
      (ParariusMonitor.runCycle ["u"] "t2" (fun _ => [⟨"A1", "", none, "m",
          some "T", none, some "P", some "A"⟩]) ⟨none, none, none, none⟩
          (fun _ => SmsOutcome.raised "boom")
          (ParariusMonitor.runCycle ["u"] "t" (fun _ => [⟨"A1", "", none, "m",
            some "T", none, some "P", some "A"⟩]) ⟨none, none, none, none⟩
            (fun _ => SmsOutcome.raised "boom") [("u", [])]).1).2.1 = [] := by
  have h := c4_notification_isolated ["u"] "t" "t2"
    (fun _ => [⟨"A1", "", none, "m", some "T", none, some "P", some "A"⟩])
    ⟨none, none, none, none⟩ ⟨none, none, none, none⟩
    (fun _ => SmsOutcome.raised "boom") (fun _ => SmsOutcome.raised "boom")
    [("u", [])]
  exact ⟨h.2.2.2.1 ⟨"A1", "T", "P", "A", "u", "u", "t"⟩ (by decide), h.2.2.2.2⟩

/-- One constructor loop step keeps every existing binding of the loaded
state. -/
theorem initStep_preserves (u a : String) (v : InnerMap) (s : SeenMap)
    (h : alookup u s = some v) :
    alookup u (if alookup a s = none then aset a [] s else s) = some v := by
  split
  · rename_i hnone
    rw [alookup_aset]
    by_cases hau : a = u
    · subst hau
      rw [h] at hnone
      cases hnone
    · rw [if_neg hau]
      exact h
  · exact h

/-- The constructor loop keeps every existing binding of the loaded state. -/
theorem initFold_preserves (urls : List String) (s : SeenMap) (u : String) (v : InnerMap)
    (h : alookup u s = some v) :
    alookup u (urls.foldl (fun s u => if alookup u s = none then aset u [] s else s) s)
      = some v := by
  induction urls generalizing s with
  | nil => exact h
  | cons a t ih => exact ih _ (initStep_preserves u a v s h)

/-- After the constructor loop, every configured url has an entry. -/
theorem initFold_mem (urls : List String) (s : SeenMap) (u : String) (hu : u ∈ urls) :
    alookup u (urls.foldl (fun s u => if alookup u s = none then aset u [] s else s) s)
      ≠ none := by
  induction urls generalizing s with
  | nil => cases hu
  | cons a t ih =>
    rw [List.foldl_cons]
    rcases List.mem_cons.mp hu with heq | hmem
    · subst heq
      have h1 : ∃ w, alookup u (if alookup u s = none then aset u [] s else s) = some w := by
        split
        · exact ⟨[], by rw [alookup_aset, if_pos rfl]⟩
        · rename_i hs
          rcases Option.isSome_iff_exists.mp (Option.isSome_iff_ne_none.mpr hs) with ⟨w, hw⟩
          exact ⟨w, hw⟩
      rcases h1 with ⟨w, hw⟩
      rw [initFold_preserves t _ u w hw]
      exact fun hc => Option.noConfusion hc
    · exact ih (if alookup a s = none then aset a [] s else s) hmem

/-- C10: the constructor raises ValueError exactly when search_urls is not a
list or is empty; otherwise it completes and the resulting state has an
entry for every configured url while every binding loaded from the
persisted file survives untouched. -/
theorem c10_constructor_state (urls : List String) (loaded : SeenMap)
    (hne : urls ≠ []) :
    (∀ loaded2, ParariusMonitor.constructor .nonList loaded2 =
        .error "search_urls must be a non-empty list of URLs.") ∧
      (∀ loaded2, ParariusMonitor.constructor (.strList []) loaded2 =
        .error "search_urls must be a non-empty list of URLs.") ∧
      ∃ s, ParariusMonitor.constructor (.strList urls) loaded = .ok s ∧
        (∀ u ∈ urls, alookup u s ≠ none) ∧
        (∀ u v, alookup u loaded = some v → alookup u s = some v) := by
  refine ⟨fun _ => rfl, fun _ => rfl, ?_⟩
  refine ⟨urls.foldl (fun s u => if alookup u s = none then aset u [] s else s) loaded,
    ?_, ?_, ?_⟩
  · simp only [ParariusMonitor.constructor]
    rw [if_neg hne]
  · intro u hu
    exact initFold_mem urls loaded u hu
  · intro u v hv
    exact initFold_preserves urls loaded u v hv

/-- Witness for C10 with two configured urls, one of them already loaded. -/
theorem c10_witness :
    (["a", "b"] : List String) ≠ [] ∧
      ∃ s, ParariusMonitor.constructor (.strList ["a", "b"])
          [("a", [("k", ⟨"k", "T", "P", "A", "L", "a", "t0"⟩)])] = .ok s ∧
        (∀ u ∈ (["a", "b"] : List String), alookup u s ≠ none) ∧
        (∀ u v, alookup u [("a", [("k", ⟨"k", "T", "P", "A", "L", "a", "t0"⟩)])] = some v →
          alookup u s = some v) :=
  ⟨by decide, (c10_constructor_state ["a", "b"]
    [("a", [("k", ⟨"k", "T", "P", "A", "L", "a", "t0"⟩)])] (by decide)).2.2⟩
